import Mathlib

/-
Verification of the synthetic-telemetry dashboard (drone_neon_dashboard.py).

The reproducible core of the program is embedded shallowly over ℚ:
`random.uniform a b` is modelled as `a + (b - a) * t` for an underlying
`random()` draw `t` with `0 ≤ t < 1`, `random.randint` as an integer in the
closed range, Python's built-in `round(x, n)` as round-half-to-even at `n`
decimal digits, and `np.random.normal(mu, sigma, size=30)` as
`mu + sigma * z i` for a stream `z` of standard-normal draws. One
`RandomDraw` record collects every draw a single render consumes.
-/

namespace DroneDashboard

/-- Round a rational to the nearest integer, ties to the even integer, as
Python's built-in `round` does. -/
def roundHalfEven (x : ℚ) : ℤ :=
  if x - ⌊x⌋ < 1/2 then ⌊x⌋
  else if 1/2 < x - ⌊x⌋ then ⌊x⌋ + 1
  else if ⌊x⌋ % 2 = 0 then ⌊x⌋ else ⌊x⌋ + 1

/-- Python's `round(x, n)`: round to `n` decimal digits, ties to even. -/
def pyRound (n : ℕ) (x : ℚ) : ℚ := (roundHalfEven (x * 10 ^ n) : ℚ) / 10 ^ n

/-- Python's `random.uniform a b`, written as `a + (b-a)*random()`; the
parameter `t` is the underlying `random()` draw, which lies in `[0, 1)`. -/
def uniform (a b t : ℚ) : ℚ := a + (b - a) * t

/-- The draw of `random()` lies in the half-open unit interval. -/
def unit01 (t : ℚ) : Prop := 0 ≤ t ∧ t < 1

/-- The list of flight modes passed to `random.choice` (line 36). -/
def modes : List String := ["Auto", "Manual", "RTL", "Loiter"]

/-- One record of every draw of the module-level random source consumed by a
single call of `generate_telemetry`: the chosen index for `random.choice`,
one `random()` draw per `random.uniform` field, and the `random.randint`
result for `signal`. -/
structure RandomDraw where
  modeIdx : Fin modes.length
  tBattery : ℚ
  signalVal : ℤ
  tAltitude : ℚ
  tTemperature : ℚ
  tPressure : ℚ
  tRoll : ℚ
  tPitch : ℚ
  tYaw : ℚ
  tLat : ℚ
  tLon : ℚ
  tSpeed : ℚ

/-- A draw is valid when every `random()` result is in `[0,1)` and the
`randint(-90, -50)` result is in its closed range. -/
def ValidDraw (d : RandomDraw) : Prop :=
  unit01 d.tBattery ∧ (-90 ≤ d.signalVal ∧ d.signalVal ≤ -50) ∧
  unit01 d.tAltitude ∧ unit01 d.tTemperature ∧ unit01 d.tPressure ∧
  unit01 d.tRoll ∧ unit01 d.tPitch ∧ unit01 d.tYaw ∧
  unit01 d.tLat ∧ unit01 d.tLon ∧ unit01 d.tSpeed

instance (d : RandomDraw) : Decidable (ValidDraw d) := by
  unfold ValidDraw unit01; infer_instance

/-- The telemetry dictionary returned by `generate_telemetry` (lines 34-48). -/
structure Telemetry where
  mode : String
  battery : ℚ
  signal : ℤ
  altitude : ℚ
  temperature : ℚ
  pressure : ℚ
  roll : ℚ
  pitch : ℚ
  yaw : ℚ
  lat : ℚ
  lon : ℚ
  speed : ℚ

/-- `generate_telemetry` (lines 34-48), with the random source made explicit. -/
def generate_telemetry (d : RandomDraw) : Telemetry where
  mode := modes.get d.modeIdx
  battery := pyRound 2 (uniform 8.5 12.6 d.tBattery)
  signal := d.signalVal
  altitude := pyRound 2 (uniform 100 250 d.tAltitude)
  temperature := pyRound 2 (uniform 18 30 d.tTemperature)
  pressure := pyRound 2 (uniform 960 1025 d.tPressure)
  roll := pyRound 2 (uniform (-10) 10 d.tRoll)
  pitch := pyRound 2 (uniform (-30) 30 d.tPitch)
  yaw := pyRound 2 (uniform 0 360 d.tYaw)
  lat := pyRound 6 (uniform 29.13 29.14 d.tLat)
  lon := pyRound 6 (uniform 77.22 77.23 d.tLon)
  speed := pyRound 2 (uniform 5 25 d.tSpeed)

/-- The alert branch (lines 53-54): `st.error("Battery Critical!")` is shown
exactly when `telemetry["battery"] < 9.0`. -/
def batteryAlert (t : Telemetry) : Bool := decide (t.battery < 9.0)

/- Rounding bounds: Python's round never moves a value past an adjacent
integer, so `⌊x⌋ ≤ roundHalfEven x ≤ ⌈x⌉`. -/

lemma roundHalfEven_ge_floor (x : ℚ) : ⌊x⌋ ≤ roundHalfEven x := by
  unfold roundHalfEven
  split_ifs <;> omega

lemma roundHalfEven_le_ceil (x : ℚ) : roundHalfEven x ≤ ⌈x⌉ := by
  unfold roundHalfEven
  have h1 : ⌊x⌋ ≤ ⌈x⌉ := Int.floor_le_ceil x
  split_ifs with hlt hgt heven
  · exact h1
  · have hx : (⌊x⌋ : ℚ) < x := by
      have := Int.floor_le x
      linarith
    have := Int.lt_ceil.mpr hx
    omega
  · exact h1
  · have hx : (⌊x⌋ : ℚ) < x := by
      have := Int.floor_le x
      linarith
    have := Int.lt_ceil.mpr hx
    omega

lemma le_pyRound (n : ℕ) (x : ℚ) (A : ℤ) (h : (A : ℚ) ≤ x * 10 ^ n) :
    (A : ℚ) / 10 ^ n ≤ pyRound n x := by
  unfold pyRound
  have h1 : A ≤ ⌊x * 10 ^ n⌋ := Int.le_floor.mpr h
  have h2 : A ≤ roundHalfEven (x * 10 ^ n) :=
    le_trans h1 (roundHalfEven_ge_floor _)
  have hp : (0 : ℚ) < 10 ^ n := by positivity
  exact (div_le_div_iff_of_pos_right hp).mpr (by exact_mod_cast h2)

lemma pyRound_le (n : ℕ) (x : ℚ) (B : ℤ) (h : x * 10 ^ n ≤ (B : ℚ)) :
    pyRound n x ≤ (B : ℚ) / 10 ^ n := by
  unfold pyRound
  have h1 : ⌈x * 10 ^ n⌉ ≤ B := Int.ceil_le.mpr h
  have h2 : roundHalfEven (x * 10 ^ n) ≤ B :=
    le_trans (roundHalfEven_le_ceil _) h1
  have hp : (0 : ℚ) < 10 ^ n := by positivity
  exact (div_le_div_iff_of_pos_right hp).mpr (by exact_mod_cast h2)

/-- Rounding a uniform draw from `[a, b)` to `n` decimals stays inside the
closed interval `[a, b]`, provided both endpoints are exact at `n` decimals. -/
lemma pyRound_uniform_mem (n : ℕ) (a b t : ℚ) (A B : ℤ)
    (hA : (A : ℚ) = a * 10 ^ n) (hB : (B : ℚ) = b * 10 ^ n)
    (hab : a ≤ b) (ht : unit01 t) :
    a ≤ pyRound n (uniform a b t) ∧ pyRound n (uniform a b t) ≤ b := by
  obtain ⟨ht0, ht1⟩ := ht
  have hp : (0 : ℚ) < 10 ^ n := by positivity
  have hx0 : a ≤ uniform a b t := by
    unfold uniform; nlinarith
  have hx1 : uniform a b t ≤ b := by
    unfold uniform; nlinarith
  have ha' : a = (A : ℚ) / 10 ^ n := by rw [hA]; field_simp
  have hb' : b = (B : ℚ) / 10 ^ n := by rw [hB]; field_simp
  constructor
  · have h := le_pyRound n (uniform a b t) A
      (by rw [hA]; exact mul_le_mul_of_nonneg_right hx0 hp.le)
    linarith
  · have h := pyRound_le n (uniform a b t) B
      (by rw [hB]; exact mul_le_mul_of_nonneg_right hx1 hp.le)
    linarith

/- Presentation layer. -/

/-- One plotly gauge `Indicator` as configured by `create_gauge`
(lines 116-129): the displayed value, the title, and the gauge axis range
`[None, max_val]` (a missing lower bound is `none`). -/
structure Gauge where
  value : ℚ
  title : String
  axisRangeMin : Option ℚ
  axisRangeMax : ℚ

/-- `create_gauge(value, title, max_val)` (lines 116-129). -/
def create_gauge (value : ℚ) (title : String) (max_val : ℚ) : Gauge where
  value := value
  title := title
  axisRangeMin := none
  axisRangeMax := max_val

/-- Modelled from the spec: plotly resolves a `None` lower bound of a gauge
axis to 0 (the spec states the altitude gauge's displayed axis domain is
`[0, 300]`), so the displayed domain is `(min.getD 0, max)`. -/
def gaugeAxisDomain (g : Gauge) : ℚ × ℚ := (g.axisRangeMin.getD 0, g.axisRangeMax)

/-- The speed gauge call (line 131). -/
def speedGauge (t : Telemetry) : Gauge := create_gauge t.speed "Speed (m/s)" 50

/-- The altitude gauge call (line 132). -/
def altitudeGauge (t : Telemetry) : Gauge := create_gauge t.altitude "Altitude (m)" 300

/-- The battery gauge call (line 133). -/
def batteryGauge (t : Telemetry) : Gauge := create_gauge t.battery "Battery (V)" 13

/-- The signal gauge call (line 134): the displayed value is
`abs(telemetry["signal"])`. -/
def signalGauge (t : Telemetry) : Gauge :=
  create_gauge (|t.signal| : ℤ) "Signal (dBm)" 100

/-- A plotly 3-d figure as built in the "3D Drone View" block (lines 71-104):
one marker trace for the body and one line trace per arm, each trace a triple
of coordinate lists. -/
structure Wireframe where
  body : List ℚ × List ℚ × List ℚ
  arms : List (List ℚ × List ℚ × List ℚ)

/-- The "3D Drone View" figure (lines 71-104). The telemetry reading is in
scope at this point of the script but none of its fields are used: the body
marker sits at the origin and the four arms are the constant X shape from
lines 82-87. -/
def droneView (_t : Telemetry) : Wireframe where
  body := ([0], [0], [0])
  arms :=
    [([0, 1], [0, 1], [0, 0]),
     ([0, -1], [0, 1], [0, 0]),
     ([0, -1], [0, -1], [0, 0]),
     ([0, 1], [0, -1], [0, 0])]

/-- The map pin (line 109): the single row of the DataFrame handed to
`st.map`, as a (lat, lon) pair. -/
def mapPin (t : Telemetry) : ℚ × ℚ := (t.lat, t.lon)

/-- The coordinates markdown line (line 110): the pair of values interpolated
into the f-string, in display order. -/
def coordinatesText (t : Telemetry) : ℚ × ℚ := (t.lat, t.lon)

/- Trend series (lines 148-155). -/

/-- `pd.date_range(end=now, periods, freq="s")` (line 149): `periods`
timestamps one second apart ending at `now`, as integer seconds. -/
def time_range (now : ℤ) (periods : ℕ) : List ℤ :=
  (List.range periods).map (fun (i : ℕ) => now - ((periods : ℤ) - 1) + (i : ℤ))

/-- A Gaussian draw `np.random.normal mu sigma`, with `z` the underlying
standard-normal draw. -/
def normal (mu sigma z : ℚ) : ℚ := mu + sigma * z

/-- The standard-normal draws consumed by the three `np.random.normal`
calls of lines 152-154, one stream per series. -/
structure TrendNoise where
  zAlt : ℕ → ℚ
  zTemp : ℕ → ℚ
  zSpeed : ℕ → ℚ

/-- The trend DataFrame (lines 149-155): `Time`, `Altitude`, `Temperature`
and `Speed` columns. -/
structure TrendData where
  time : List ℤ
  altitude : List ℚ
  temperature : List ℚ
  speed : List ℚ

/-- The `data` DataFrame built at lines 150-155 from the reading `t`, the
generation time `now` and the noise draws `nz`. -/
def trendData (now : ℤ) (t : Telemetry) (nz : TrendNoise) : TrendData where
  time := time_range now 30
  altitude := (List.range 30).map (fun i => normal t.altitude 5 (nz.zAlt i))
  temperature := (List.range 30).map (fun i => normal t.temperature 1 (nz.zTemp i))
  speed := (List.range 30).map (fun i => normal t.speed 1.5 (nz.zSpeed i))

/- Per-field bounds of the sampler, shared by several claims below. -/

lemma mode_mem (d : RandomDraw) : (generate_telemetry d).mode ∈ modes := by
  show modes.get d.modeIdx ∈ modes
  exact List.get_mem modes d.modeIdx.1 d.modeIdx.2

lemma battery_bounds (d : RandomDraw) (h : ValidDraw d) :
    8.5 ≤ (generate_telemetry d).battery ∧ (generate_telemetry d).battery ≤ 12.6 := by
  exact pyRound_uniform_mem 2 8.5 12.6 d.tBattery 850 1260
    (by norm_num) (by norm_num) (by norm_num) h.1

lemma signal_bounds (d : RandomDraw) (h : ValidDraw d) :
    -90 ≤ (generate_telemetry d).signal ∧ (generate_telemetry d).signal ≤ -50 :=
  h.2.1

lemma altitude_bounds (d : RandomDraw) (h : ValidDraw d) :
    100 ≤ (generate_telemetry d).altitude ∧ (generate_telemetry d).altitude ≤ 250 := by
  exact pyRound_uniform_mem 2 100 250 d.tAltitude 10000 25000
    (by norm_num) (by norm_num) (by norm_num) h.2.2.1

lemma temperature_bounds (d : RandomDraw) (h : ValidDraw d) :
    18 ≤ (generate_telemetry d).temperature ∧ (generate_telemetry d).temperature ≤ 30 := by
  exact pyRound_uniform_mem 2 18 30 d.tTemperature 1800 3000
    (by norm_num) (by norm_num) (by norm_num) h.2.2.2.1

lemma pressure_bounds (d : RandomDraw) (h : ValidDraw d) :
    960 ≤ (generate_telemetry d).pressure ∧ (generate_telemetry d).pressure ≤ 1025 := by
  exact pyRound_uniform_mem 2 960 1025 d.tPressure 96000 102500
    (by norm_num) (by norm_num) (by norm_num) h.2.2.2.2.1

lemma roll_bounds (d : RandomDraw) (h : ValidDraw d) :
    -10 ≤ (generate_telemetry d).roll ∧ (generate_telemetry d).roll ≤ 10 := by
  exact pyRound_uniform_mem 2 (-10) 10 d.tRoll (-1000) 1000
    (by norm_num) (by norm_num) (by norm_num) h.2.2.2.2.2.1

lemma pitch_bounds (d : RandomDraw) (h : ValidDraw d) :
    -30 ≤ (generate_telemetry d).pitch ∧ (generate_telemetry d).pitch ≤ 30 := by
  exact pyRound_uniform_mem 2 (-30) 30 d.tPitch (-3000) 3000
    (by norm_num) (by norm_num) (by norm_num) h.2.2.2.2.2.2.1

lemma yaw_bounds (d : RandomDraw) (h : ValidDraw d) :
    0 ≤ (generate_telemetry d).yaw ∧ (generate_telemetry d).yaw ≤ 360 := by
  exact pyRound_uniform_mem 2 0 360 d.tYaw 0 36000
    (by norm_num) (by norm_num) (by norm_num) h.2.2.2.2.2.2.2.1

lemma lat_bounds (d : RandomDraw) (h : ValidDraw d) :
    29.13 ≤ (generate_telemetry d).lat ∧ (generate_telemetry d).lat ≤ 29.14 := by
  exact pyRound_uniform_mem 6 29.13 29.14 d.tLat 29130000 29140000
    (by norm_num) (by norm_num) (by norm_num) h.2.2.2.2.2.2.2.2.1

lemma lon_bounds (d : RandomDraw) (h : ValidDraw d) :
    77.22 ≤ (generate_telemetry d).lon ∧ (generate_telemetry d).lon ≤ 77.23 := by
  exact pyRound_uniform_mem 6 77.22 77.23 d.tLon 77220000 77230000
    (by norm_num) (by norm_num) (by norm_num) h.2.2.2.2.2.2.2.2.2.1

lemma speed_bounds (d : RandomDraw) (h : ValidDraw d) :
    5 ≤ (generate_telemetry d).speed ∧ (generate_telemetry d).speed ≤ 25 := by
  exact pyRound_uniform_mem 2 5 25 d.tSpeed 500 2500
    (by norm_num) (by norm_num) (by norm_num) h.2.2.2.2.2.2.2.2.2.2

/- Shape of the trend columns. -/

lemma time_range_length (now : ℤ) (n : ℕ) : (time_range now n).length = n := by
  simp [time_range]

lemma time_range_getD (now : ℤ) (n i : ℕ) (hi : i < n) :
    (time_range now n).getD i 0 = now - ((n : ℤ) - 1) + (i : ℤ) := by
  simp [time_range, List.getD_eq_getElem?_getD, List.getElem?_map,
    List.getElem?_range hi]

lemma time_range_pairwise (now : ℤ) (n : ℕ) :
    (time_range now n).Pairwise (· < ·) := by
  unfold time_range
  refine List.Pairwise.map _ ?_ (List.pairwise_lt_range n)
  intro a b hab
  omega

lemma range_map_getD (f : ℕ → ℚ) (n i : ℕ) (hi : i < n) :
    ((List.range n).map f).getD i 0 = f i := by
  simp [List.getD_eq_getElem?_getD, List.getElem?_map, List.getElem?_range hi]

/- Concrete draws used as witnesses and counterexamples. -/

/-- A concrete valid draw: every `random()` result is 0 and `randint`
returned -70. -/
def d0 : RandomDraw where
  modeIdx := ⟨0, by decide⟩
  tBattery := 0
  signalVal := -70
  tAltitude := 0
  tTemperature := 0
  tPressure := 0
  tRoll := 0
  tPitch := 0
  tYaw := 0
  tLat := 0
  tLon := 0
  tSpeed := 0

/-- A valid draw whose `random()` result for yaw is 359999/360000, so that
`uniform 0 360` yields 359.999, which `round(·, 2)` takes to 360.00. -/
def yawDraw : RandomDraw := { d0 with tYaw := 359999/360000 }

/-- A second such draw: `random()` for yaw is 99999/100000, `uniform 0 360`
yields 359.9964 and `round(·, 2)` takes it to 360.00. -/
def yawDraw2 : RandomDraw := { d0 with tYaw := 99999/100000 }

/-- The noise streams that draw 0 everywhere. -/
def noise0 : TrendNoise := ⟨fun _ => 0, fun _ => 0, fun _ => 0⟩

/-- Noise streams whose altitude draws are huge, pushing every altitude trend
point far above the sampler's range. -/
def bigNoise : TrendNoise := ⟨fun _ => 1000, fun _ => 0, fun _ => 0⟩

lemma batteryAlert_eq_true (t : Telemetry) : batteryAlert t = true ↔ t.battery < 9.0 := by
  simp [batteryAlert]

lemma d0_valid : ValidDraw d0 := by decide

lemma yawDraw_valid : ValidDraw yawDraw := by
  norm_num [ValidDraw, unit01, yawDraw, d0]

lemma yawDraw2_valid : ValidDraw yawDraw2 := by
  norm_num [ValidDraw, unit01, yawDraw2, d0]

lemma yawDraw_yaw_eq : (generate_telemetry yawDraw).yaw = 360 := by
  norm_num [generate_telemetry, yawDraw, d0, pyRound, roundHalfEven, uniform]

lemma yawDraw2_yaw_eq : (generate_telemetry yawDraw2).yaw = 360 := by
  norm_num [generate_telemetry, yawDraw2, d0, pyRound, roundHalfEven, uniform]

lemma d0_battery_eq : (generate_telemetry d0).battery = 8.5 := by
  norm_num [generate_telemetry, d0, pyRound, roundHalfEven, uniform]

lemma d0_altitude_eq : (generate_telemetry d0).altitude = 100 := by
  norm_num [generate_telemetry, d0, pyRound, roundHalfEven, uniform]

/- Claims. -/

/-- C1, counterexample: the claim as stated is false. The valid draw
`yawDraw` (every `random()` result in `[0,1)`, `randint` in range) makes
`generate_telemetry` return yaw = 360.00, because `uniform(0, 360)` yields
359.999 and `round(·, 2)` carries it up to 360, which is not in `[0, 360)`. -/
theorem C1_yaw_counterexample :
    ValidDraw yawDraw ∧ (generate_telemetry yawDraw).yaw = 360 ∧
    ¬ (generate_telemetry yawDraw).yaw < 360 := by
  refine ⟨yawDraw_valid, yawDraw_yaw_eq, ?_⟩
  rw [yawDraw_yaw_eq]
  exact lt_irrefl 360

/-- C1 (amended): for every draw of the underlying random source, every field
of the reading returned by `generate_telemetry` lies in its declared domain,
with yaw in the closed interval [0, 360] (rounding can reach 360 exactly):
mode in {Auto, Manual, RTL, Loiter}, battery in [8.5, 12.6], signal an
integer in [-90, -50], altitude in [100, 250], temperature in [18, 30],
pressure in [960, 1025], roll in [-10, 10], pitch in [-30, 30], lat in
[29.13, 29.14], lon in [77.22, 77.23], speed in [5, 25]. -/
theorem C1_fields_in_domain (d : RandomDraw) (h : ValidDraw d) :
    (generate_telemetry d).mode ∈ modes ∧
    (8.5 ≤ (generate_telemetry d).battery ∧ (generate_telemetry d).battery ≤ 12.6) ∧
    (-90 ≤ (generate_telemetry d).signal ∧ (generate_telemetry d).signal ≤ -50) ∧
    (100 ≤ (generate_telemetry d).altitude ∧ (generate_telemetry d).altitude ≤ 250) ∧
    (18 ≤ (generate_telemetry d).temperature ∧ (generate_telemetry d).temperature ≤ 30) ∧
    (960 ≤ (generate_telemetry d).pressure ∧ (generate_telemetry d).pressure ≤ 1025) ∧
    (-10 ≤ (generate_telemetry d).roll ∧ (generate_telemetry d).roll ≤ 10) ∧
    (-30 ≤ (generate_telemetry d).pitch ∧ (generate_telemetry d).pitch ≤ 30) ∧
    (0 ≤ (generate_telemetry d).yaw ∧ (generate_telemetry d).yaw ≤ 360) ∧
    (29.13 ≤ (generate_telemetry d).lat ∧ (generate_telemetry d).lat ≤ 29.14) ∧
    (77.22 ≤ (generate_telemetry d).lon ∧ (generate_telemetry d).lon ≤ 77.23) ∧
    (5 ≤ (generate_telemetry d).speed ∧ (generate_telemetry d).speed ≤ 25) :=
  ⟨mode_mem d, battery_bounds d h, signal_bounds d h, altitude_bounds d h,
   temperature_bounds d h, pressure_bounds d h, roll_bounds d h, pitch_bounds d h,
   yaw_bounds d h, lat_bounds d h, lon_bounds d h, speed_bounds d h⟩

/-- C1, witness: the amended domain statement evaluated at the concrete valid
draw `d0`. -/
theorem C1_witness :
    ValidDraw d0 ∧
    ((generate_telemetry d0).mode ∈ modes ∧
    (8.5 ≤ (generate_telemetry d0).battery ∧ (generate_telemetry d0).battery ≤ 12.6) ∧
    (-90 ≤ (generate_telemetry d0).signal ∧ (generate_telemetry d0).signal ≤ -50) ∧
    (100 ≤ (generate_telemetry d0).altitude ∧ (generate_telemetry d0).altitude ≤ 250) ∧
    (18 ≤ (generate_telemetry d0).temperature ∧ (generate_telemetry d0).temperature ≤ 30) ∧
    (960 ≤ (generate_telemetry d0).pressure ∧ (generate_telemetry d0).pressure ≤ 1025) ∧
    (-10 ≤ (generate_telemetry d0).roll ∧ (generate_telemetry d0).roll ≤ 10) ∧
    (-30 ≤ (generate_telemetry d0).pitch ∧ (generate_telemetry d0).pitch ≤ 30) ∧
    (0 ≤ (generate_telemetry d0).yaw ∧ (generate_telemetry d0).yaw ≤ 360) ∧
    (29.13 ≤ (generate_telemetry d0).lat ∧ (generate_telemetry d0).lat ≤ 29.14) ∧
    (77.22 ≤ (generate_telemetry d0).lon ∧ (generate_telemetry d0).lon ≤ 77.23) ∧
    (5 ≤ (generate_telemetry d0).speed ∧ (generate_telemetry d0).speed ≤ 25)) :=
  ⟨by decide, C1_fields_in_domain d0 (by decide)⟩

/-- C2: the "Battery Critical!" alert is raised iff the sampled reading's
battery is strictly below 9.0; a reading with battery 8.2 raises it, one with
battery 10.0 does not. -/
theorem C2_battery_alert_iff (t : Telemetry) :
    (batteryAlert t = true ↔ t.battery < 9.0) ∧
    batteryAlert { t with battery := 8.2 } = true ∧
    batteryAlert { t with battery := 10.0 } = false := by
  refine ⟨batteryAlert_eq_true t, ?_, ?_⟩
  · rw [batteryAlert_eq_true]
    norm_num
  · rw [Bool.eq_false_iff, Ne, batteryAlert_eq_true]
    norm_num

/-- C2, witness: the alert characterisation evaluated at the concrete reading
`generate_telemetry d0`. -/
theorem C2_witness :
    (batteryAlert (generate_telemetry d0) = true ↔
      (generate_telemetry d0).battery < 9.0) ∧
    batteryAlert { generate_telemetry d0 with battery := 8.2 } = true ∧
    batteryAlert { generate_telemetry d0 with battery := 10.0 } = false :=
  C2_battery_alert_iff (generate_telemetry d0)

/-- C3: the trend DataFrame always has exactly 30 points per column; its
timestamps are strictly increasing, consecutive ones differ by exactly one
second, the last one is the generation time; and the Altitude, Temperature
and Speed points are Gaussian draws centred on the reading's corresponding
field with sigma 5, 1 and 1.5. -/
theorem C3_trend_shape (now : ℤ) (t : Telemetry) (nz : TrendNoise) :
    (trendData now t nz).time.length = 30 ∧
    (trendData now t nz).altitude.length = 30 ∧
    (trendData now t nz).temperature.length = 30 ∧
    (trendData now t nz).speed.length = 30 ∧
    (trendData now t nz).time.Pairwise (· < ·) ∧
    (∀ i : ℕ, i + 1 < 30 →
      (trendData now t nz).time.getD (i + 1) 0 =
        (trendData now t nz).time.getD i 0 + 1) ∧
    (trendData now t nz).time.getD 29 0 = now ∧
    (∀ i : ℕ, i < 30 →
      (trendData now t nz).altitude.getD i 0 = normal t.altitude 5 (nz.zAlt i) ∧
      (trendData now t nz).temperature.getD i 0 = normal t.temperature 1 (nz.zTemp i) ∧
      (trendData now t nz).speed.getD i 0 = normal t.speed 1.5 (nz.zSpeed i)) := by
  refine ⟨time_range_length now 30, by simp [trendData], by simp [trendData],
    by simp [trendData], time_range_pairwise now 30, ?_, ?_, ?_⟩
  · intro i hi
    show (time_range now 30).getD (i + 1) 0 = (time_range now 30).getD i 0 + 1
    rw [time_range_getD now 30 (i + 1) hi, time_range_getD now 30 i (by omega)]
    push_cast
    ring
  · show (time_range now 30).getD 29 0 = now
    rw [time_range_getD now 30 29 (by norm_num)]
    norm_num
  · intro i hi
    exact ⟨range_map_getD (fun j => normal t.altitude 5 (nz.zAlt j)) 30 i hi,
      range_map_getD (fun j => normal t.temperature 1 (nz.zTemp j)) 30 i hi,
      range_map_getD (fun j => normal t.speed 1.5 (nz.zSpeed j)) 30 i hi⟩

/-- C3, witness: the shape statement evaluated at generation time 0, the
reading `generate_telemetry d0` and the zero noise streams. -/
theorem C3_witness :
    (trendData 0 (generate_telemetry d0) noise0).time.length = 30 ∧
    (trendData 0 (generate_telemetry d0) noise0).time.getD 29 0 = 0 :=
  ⟨(C3_trend_shape 0 (generate_telemetry d0) noise0).1,
   (C3_trend_shape 0 (generate_telemetry d0) noise0).2.2.2.2.2.2.1⟩

/-- C4, counterexample: the claim as stated is false. The valid draw
`yawDraw2`, whose `random()` result for yaw is 99999/100000, makes
`round(uniform(0, 360), 2)` return exactly 360.00, so yaw is not strictly
less than 360. -/
theorem C4_yaw_counterexample :
    ValidDraw yawDraw2 ∧ (generate_telemetry yawDraw2).yaw = 360 ∧
    ¬ (generate_telemetry yawDraw2).yaw < 360 := by
  refine ⟨yawDraw2_valid, yawDraw2_yaw_eq, ?_⟩
  rw [yawDraw2_yaw_eq]
  exact lt_irrefl 360

/-- C4 (amended): for every draw of the random source, the yaw field of the
reading produced by `generate_telemetry` — `round(uniform(0, 360), 2)` — lies
in the closed interval [0, 360]; the upper endpoint 360 is attainable through
rounding, so the half-open bound of the original claim does not hold. -/
theorem C4_yaw_in_closed_interval (d : RandomDraw) (h : ValidDraw d) :
    0 ≤ (generate_telemetry d).yaw ∧ (generate_telemetry d).yaw ≤ 360 :=
  yaw_bounds d h

/-- C4, witness: the closed-interval bound evaluated at the concrete valid
draw `d0`. -/
theorem C4_witness :
    0 ≤ (generate_telemetry d0).yaw ∧ (generate_telemetry d0).yaw ≤ 360 :=
  C4_yaw_in_closed_interval d0 (by decide)

/-- C5: the value displayed on the signal gauge is `abs(signal)` of the
sampled reading, and for every reading of `generate_telemetry` it lies in
[50, 90]. -/
theorem C5_signal_gauge (d : RandomDraw) (h : ValidDraw d) :
    (signalGauge (generate_telemetry d)).value =
      ((|(generate_telemetry d).signal| : ℤ) : ℚ) ∧
    50 ≤ (signalGauge (generate_telemetry d)).value ∧
    (signalGauge (generate_telemetry d)).value ≤ 90 := by
  obtain ⟨h1, h2⟩ := signal_bounds d h
  have habs : |(generate_telemetry d).signal| = -(generate_telemetry d).signal :=
    abs_of_neg (by omega)
  refine ⟨rfl, ?_, ?_⟩
  · show (50 : ℚ) ≤ ((|(generate_telemetry d).signal| : ℤ) : ℚ)
    have : (50 : ℤ) ≤ |(generate_telemetry d).signal| := by rw [habs]; omega
    exact_mod_cast this
  · show ((|(generate_telemetry d).signal| : ℤ) : ℚ) ≤ 90
    have : |(generate_telemetry d).signal| ≤ (90 : ℤ) := by rw [habs]; omega
    exact_mod_cast this

/-- C5, witness: the signal-gauge statement evaluated at the concrete valid
draw `d0` (whose `randint` draw is -70). -/
theorem C5_witness :
    (signalGauge (generate_telemetry d0)).value =
      ((|(generate_telemetry d0).signal| : ℤ) : ℚ) ∧
    50 ≤ (signalGauge (generate_telemetry d0)).value ∧
    (signalGauge (generate_telemetry d0)).value ≤ 90 :=
  C5_signal_gauge d0 (by decide)

/-- C6: the altitude gauge's displayed axis domain is [0, 300] and it never
clamps a valid reading: every sampled altitude satisfies
`0 ≤ altitude ≤ 250 < 300`, strictly below the gauge maximum. -/
theorem C6_altitude_gauge (d : RandomDraw) (h : ValidDraw d) :
    gaugeAxisDomain (altitudeGauge (generate_telemetry d)) = (0, 300) ∧
    (generate_telemetry d).altitude ≤ 250 ∧ (250 : ℚ) < 300 ∧
    0 ≤ (generate_telemetry d).altitude ∧ (generate_telemetry d).altitude < 300 := by
  obtain ⟨h1, h2⟩ := altitude_bounds d h
  exact ⟨rfl, h2, by norm_num, by linarith, by linarith⟩

/-- C6, witness: the altitude-gauge statement evaluated at the concrete valid
draw `d0`. -/
theorem C6_witness :
    gaugeAxisDomain (altitudeGauge (generate_telemetry d0)) = (0, 300) ∧
    (generate_telemetry d0).altitude ≤ 250 ∧ (250 : ℚ) < 300 ∧
    0 ≤ (generate_telemetry d0).altitude ∧ (generate_telemetry d0).altitude < 300 :=
  C6_altitude_gauge d0 (by decide)

/-- C7, counterexample: the claim as stated is false on the segment count.
The "3D Drone View" block of lines 82-93 adds one line trace per entry of the
four-element `arms` list (Arm 1 through Arm 4), so the wireframe drawn for the
concrete reading `generate_telemetry d0` has four arm segments, not three. -/
theorem C7_arm_count_counterexample :
    (droneView (generate_telemetry d0)).arms.length = 4 ∧
    ¬ (droneView (generate_telemetry d0)).arms.length = 3 := by
  refine ⟨rfl, ?_⟩
  intro h
  simp [droneView] at h

/-- C7 (amended): the 3D wireframe is a static 4-segment X drawn around a
fixed origin regardless of the reading: its coordinates are constants, so for
any two telemetry readings the wireframe figure is identical — equal to the
fixed shape with marker at the origin and the four constant arms of
lines 82-87 — and in particular it never incorporates roll, pitch or yaw. -/
theorem C7_wireframe_static (t1 t2 : Telemetry) :
    droneView t1 = droneView t2 ∧
    (droneView t1).arms.length = 4 ∧
    droneView t1 =
      { body := ([0], [0], [0]),
        arms :=
          [([0, 1], [0, 1], [0, 0]),
           ([0, -1], [0, 1], [0, 0]),
           ([0, -1], [0, -1], [0, 0]),
           ([0, 1], [0, -1], [0, 0])] } :=
  ⟨rfl, rfl, rfl⟩

/-- C7, witness: the static-wireframe statement at two concrete readings that
differ in every attitude field. -/
theorem C7_witness :
    droneView (generate_telemetry d0) = droneView (generate_telemetry yawDraw) ∧
    (droneView (generate_telemetry d0)).arms.length = 4 ∧
    droneView (generate_telemetry d0) =
      { body := ([0], [0], [0]),
        arms :=
          [([0, 1], [0, 1], [0, 0]),
           ([0, -1], [0, 1], [0, 0]),
           ([0, -1], [0, -1], [0, 0]),
           ([0, 1], [0, -1], [0, 0])] } :=
  C7_wireframe_static (generate_telemetry d0) (generate_telemetry yawDraw)

/-- C8: whenever the "Battery Critical!" alert fires on a sampled reading,
the battery value still lies in [8.5, 9.0), and the alert branch is reachable
for some draw of the random source. -/
theorem C8_alert_battery_range :
    (∀ d : RandomDraw, ValidDraw d → batteryAlert (generate_telemetry d) = true →
      8.5 ≤ (generate_telemetry d).battery ∧ (generate_telemetry d).battery < 9.0) ∧
    (∃ d : RandomDraw, ValidDraw d ∧ batteryAlert (generate_telemetry d) = true) := by
  constructor
  · intro d h halert
    exact ⟨(battery_bounds d h).1, (batteryAlert_eq_true _).mp halert⟩
  · refine ⟨d0, d0_valid, ?_⟩
    rw [batteryAlert_eq_true, d0_battery_eq]
    norm_num

/-- C8, witness: the alert invariant applied at the concrete valid draw `d0`,
whose battery is 8.5 and hence in the critical range. -/
theorem C8_witness :
    8.5 ≤ (generate_telemetry d0).battery ∧ (generate_telemetry d0).battery < 9.0 :=
  C8_alert_battery_range.1 d0 (by decide)
    (by rw [batteryAlert_eq_true, d0_battery_eq]; norm_num)

/-- C9: trend points are not clamped to the sampled field's domain: there is
a draw of the Gaussian noise for which an Altitude trend point lies outside
[100, 250], even though the reading's own altitude field is inside
[100, 250]. -/
theorem C9_trend_not_clamped :
    ∃ (d : RandomDraw) (nz : TrendNoise) (now : ℤ),
      ValidDraw d ∧
      100 ≤ (generate_telemetry d).altitude ∧
      (generate_telemetry d).altitude ≤ 250 ∧
      ¬ (100 ≤ (trendData now (generate_telemetry d) nz).altitude.getD 0 0 ∧
          (trendData now (generate_telemetry d) nz).altitude.getD 0 0 ≤ 250) := by
  refine ⟨d0, bigNoise, 0, d0_valid, (altitude_bounds d0 d0_valid).1,
    (altitude_bounds d0 d0_valid).2, ?_⟩
  have hpt : (trendData 0 (generate_telemetry d0) bigNoise).altitude.getD 0 0 =
      normal (generate_telemetry d0).altitude 5 (bigNoise.zAlt 0) :=
    range_map_getD
      (fun j => normal (generate_telemetry d0).altitude 5 (bigNoise.zAlt j))
      30 0 (by norm_num)
  rw [hpt, d0_altitude_eq]
  norm_num [normal, bigNoise]

/-- C10: the map pin and the displayed coordinate text use the sampled lat
and lon exactly as produced by `generate_telemetry`: both are the raw pair
(lat, lon) with no transformation, rounding or clamping in between. -/
theorem C10_map_uses_raw_coordinates (t : Telemetry) :
    mapPin t = (t.lat, t.lon) ∧ coordinatesText t = (t.lat, t.lon) ∧
    mapPin t = coordinatesText t :=
  ⟨rfl, rfl, rfl⟩

/-- C10, witness: the raw-coordinate statement at the concrete reading
`generate_telemetry d0`. -/
theorem C10_witness :
    mapPin (generate_telemetry d0) =
      ((generate_telemetry d0).lat, (generate_telemetry d0).lon) ∧
    coordinatesText (generate_telemetry d0) =
      ((generate_telemetry d0).lat, (generate_telemetry d0).lon) ∧
    mapPin (generate_telemetry d0) = coordinatesText (generate_telemetry d0) :=
  C10_map_uses_raw_coordinates (generate_telemetry d0)

end DroneDashboard
